import Mathlib

/-!
Shallow embedding of the client synchronization engine of the slize
front-end (direction helpers, input command pipeline, snapshot/roster
store, connection lifecycle handlers, and the jitter-adaptive
interpolation delay), together with theorems settling the spec claims.

Sources embedded:
* `src/features/game/lib/client/direction.ts` (direction helpers)
* `src/features/game/config.ts` (CLIENT_STATE, NET_SMOOTHING, GAME_TIMING)
* `src/features/game/hooks/useGameClient.ts` (gameLoop)
* `src/features/game/hooks/useGameStateStore.ts` (roster/hot-state store)
* `src/features/game/hooks/useGameConnection.ts` (connection manager)

Timestamps and delays (JS `performance.now()` doubles) are modelled as
rationals; numeric slot ids as naturals; JS `Map`/object records as
association lists with JS update semantics (update in place for an
existing key, append for a new one).
-/

namespace Slize

/-! ### Direction helpers — direction.ts -/

inductive Direction where
  | up
  | down
  | left
  | right
  deriving DecidableEq, Repr

structure Pos where
  x : Int
  y : Int
  deriving DecidableEq, Repr

/-- Embeds `isOpposite` from direction.ts. -/
def isOpposite (a b : Direction) : Bool :=
  (a = Direction.up && b = Direction.down) ||
  (a = Direction.down && b = Direction.up) ||
  (a = Direction.left && b = Direction.right) ||
  (a = Direction.right && b = Direction.left)

/-- Embeds `getDirectionFromSnake` from direction.ts: heading from the two most
recent body-segment positions (head and neck). -/
def getDirectionFromSnake (body : List Pos) : Option Direction :=
  match body with
  | head :: neck :: _ =>
    if head.x > neck.x then some Direction.right
    else if head.x < neck.x then some Direction.left
    else if head.y > neck.y then some Direction.down
    else if head.y < neck.y then some Direction.up
    else none
  | _ => none

/-! ### Configuration — config.ts -/

structure ClientStateConfig where
  activeTabLockKey : String
  reconnectMaxDelayMs : ℚ
  reconnectBaseDelayMs : ℚ
  reconnectJitterMs : ℚ
  inputThrottleMs : ℚ

def CLIENT_STATE : ClientStateConfig :=
  { activeTabLockKey := "slize_active_tab_lock"
    reconnectMaxDelayMs := 5000
    reconnectBaseDelayMs := 750
    reconnectJitterMs := 250
    inputThrottleMs := 65 }

structure NetSmoothingConfig where
  interpBaseMs : ℚ
  interpMinMs : ℚ
  interpMaxMs : ℚ
  jitterAlpha : ℚ
  jitterFactor : ℚ
  snapshotBuffer : ℕ

def NET_SMOOTHING : NetSmoothingConfig :=
  { interpBaseMs := 120
    interpMinMs := 80
    interpMaxMs := 220
    jitterAlpha := 0.25
    jitterFactor := 1.2
    snapshotBuffer := 40 }

structure GameTimingConfig where
  serverTickRate : ℚ
  gridTransitionMs : ℚ
  roundDurationMs : ℚ

def GAME_TIMING : GameTimingConfig :=
  { serverTickRate := 150
    gridTransitionMs := 420
    roundDurationMs := 3 * 60 * 1000 }

/-! ### Input command pipeline — gameLoop in useGameClient.ts

One animation tick of `gameLoop` reads the latched directional intent
(`latestDirectionInputRef`), the actual heading derived from the local
snake (`myCurrentDirectionRef`), and the send bookkeeping
(`lastTurnSentAtRef`, `lastSentDirectionRef`); it emits at most one
"turn" command. -/

structure InputTick where
  now : ℚ
  latestInput : Option Direction
  actualDirection : Option Direction

structure PipeState where
  lastTurnSentAt : ℚ
  lastSentDirection : Option Direction
  deriving DecidableEq, Repr

/-- One iteration of `gameLoop` (useGameClient.ts, lines 109-131):
returns the updated bookkeeping and the emitted "turn" command, if any,
tagged with its send timestamp. -/
def gameLoopTick (s : PipeState) (t : InputTick) : PipeState × Option (ℚ × Direction) :=
  match t.latestInput with
  | none => (s, none)
  | some input =>
    let needsToSend :=
      -- 1. Standard turn: input is different from server state
      (match t.actualDirection with
       | some actual => decide (input ≠ actual) && !isOpposite actual input
       | none => false)
      -- 2. Break lock: input is different from what we last sent
      || decide (some input ≠ s.lastSentDirection)
    if needsToSend && decide (t.now - s.lastTurnSentAt > CLIENT_STATE.inputThrottleMs) then
      ({ lastTurnSentAt := t.now, lastSentDirection := some input }, some (t.now, input))
    else
      (s, none)

/-- Run `gameLoop` over a sequence of animation ticks, collecting the
emitted "turn" commands in order. -/
def runGameLoop (s : PipeState) : List InputTick → PipeState × List (ℚ × Direction)
  | [] => (s, [])
  | t :: ts =>
    let step := gameLoopTick s t
    let rest := runGameLoop step.1 ts
    (rest.1, step.2.toList ++ rest.2)

/-! ### Data model — types.ts -/

inductive GameModeKey where
  | free_for_all
  | team_battle
  deriving DecidableEq, Repr

inductive TeamId where
  | alpha
  | bravo
  deriving DecidableEq, Repr

inductive PowerUpType where
  | SpeedBoost
  | ScoreBoost
  | Projectile
  | Ghost
  | Reverse
  | Swap
  deriving DecidableEq, Repr

structure ActiveEffects where
  speedBoostUntil : ℚ
  isGhostUntil : ℚ
  deriving DecidableEq, Repr

structure PlayerInfo where
  nickname : String
  score : Int
  powerUpSlots : List (Option PowerUpType)
  teamId : Option TeamId
  activeEffects : ActiveEffects
  deriving DecidableEq, Repr

structure GameOverInfo where
  winnerId : String
  winnerNickname : String
  resetAt : ℚ
  winnerScore : Int
  deriving DecidableEq, Repr

structure Snake where
  id : String
  body : List Pos
  deriving DecidableEq, Repr

structure ProjectileState where
  id : String
  ownerId : String
  position : Pos
  direction : Direction
  deriving DecidableEq, Repr

structure PowerUp where
  id : String
  type : PowerUpType
  position : Pos
  deriving DecidableEq, Repr

/-- JS objects keyed by string (e.g. `Record<string, PlayerInfo>`) and
JS `Map`s are modelled as association lists with JS update semantics. -/
def AssocList (α β : Type) : Type := List (α × β)

def AssocList.get [DecidableEq α] (m : AssocList α β) (k : α) : Option β :=
  (List.find? (fun e => e.1 = k) m).map (fun e => e.2)

/-- JS `Map.set` / object-spread update: replaces in place when the key
exists, appends otherwise. -/
def AssocList.set [DecidableEq α] (m : AssocList α β) (k : α) (v : β) : AssocList α β :=
  if List.any m (fun e => e.1 = k) then
    List.map (fun e => if e.1 = k then (k, v) else e) m
  else
    List.append m [(k, v)]

def AssocList.erase [DecidableEq α] (m : AssocList α β) (k : α) : AssocList α β :=
  List.filter (fun e => ¬ e.1 = k) m

def AssocList.has [DecidableEq α] (m : AssocList α β) (k : α) : Bool :=
  List.any m (fun e => e.1 = k)

/-- Embeds `new Map(entries)`: later entries for the same key win. -/
def AssocList.ofEntries [DecidableEq α] (entries : List (α × β)) : AssocList α β :=
  List.foldl (fun m e => AssocList.set m e.1 e.2) [] entries

/-- The externally exposed `GameState` (merged view). -/
structure GameState where
  tick : ℕ
  gridSize : ℕ
  mode : GameModeKey
  snakes : List Snake
  food : List Pos
  players : AssocList String PlayerInfo
  powerUps : List PowerUp
  projectiles : List ProjectileState
  gameOver : Option GameOverInfo

structure HotSnake where
  id : ℕ
  body : List Pos
  deriving DecidableEq, Repr

structure HotProjectileState where
  id : String
  ownerId : ℕ
  position : Pos
  direction : Direction
  deriving DecidableEq, Repr

/-- The high-frequency per-tick snapshot (`HotGameState`): entity
identities are transient numeric slot ids. -/
structure HotGameState where
  tick : ℕ
  gridSize : ℕ
  mode : GameModeKey
  snakes : List HotSnake
  food : List Pos
  powerUps : List PowerUp
  projectiles : List HotProjectileState
  gameOver : Option GameOverInfo

structure SlotAssignment where
  slotId : ℕ
  playerId : String
  deriving DecidableEq, Repr

structure PlayerListPayload where
  players : AssocList String PlayerInfo
  slotAssignments : List SlotAssignment

structure ScoreUpdatePayload where
  playerId : String
  score : Int
  deriving DecidableEq, Repr

structure PowerUpUpdatePayload where
  playerId : String
  powerUpSlots : List (Option PowerUpType)
  activeEffects : ActiveEffects
  deriving DecidableEq, Repr

structure PlayerJoinedPayload where
  playerId : String
  slotId : ℕ
  player : PlayerInfo

structure PlayerLeftPayload where
  playerId : String
  slotId : ℕ
  deriving DecidableEq, Repr

/-! ### Snapshot/roster store — useGameStateStore.ts -/

/-- Embeds `clonePlayerInfo`: field-by-field deep copy (the source copies so a
snapshot already in the buffer cannot be mutated retroactively; on pure
values the copy rebuilds the identical record). -/
def clonePlayerInfo (player : PlayerInfo) : PlayerInfo :=
  { nickname := player.nickname
    score := player.score
    powerUpSlots := player.powerUpSlots
    teamId := player.teamId
    activeEffects :=
      { speedBoostUntil := player.activeEffects.speedBoostUntil
        isGhostUntil := player.activeEffects.isGhostUntil } }

/-- The mutable refs and React state of `useGameStateStore`. -/
structure StoreState where
  previousState : Option GameState
  currentState : Option GameState
  lastStateTimestamp : ℚ
  gameOverInfo : Option GameOverInfo
  isGameOverActive : Bool
  players : AssocList String PlayerInfo
  slotToPlayerId : AssocList ℕ String
  playerIdToSlot : AssocList String ℕ

/-- Embeds `resetState`. -/
def resetState (_s : StoreState) : StoreState :=
  { previousState := none
    currentState := none
    lastStateTimestamp := 0
    gameOverInfo := none
    isGameOverActive := false
    players := []
    slotToPlayerId := []
    playerIdToSlot := [] }

/-- Embeds `updatePlayersInState`: refresh `currentState.players` from the
roster ref (no-op when there is no current state). -/
def updatePlayersInState (s : StoreState) : StoreState :=
  match s.currentState with
  | none => s
  | some prev =>
    let nextPlayers := List.map (fun e : String × PlayerInfo => (e.1, clonePlayerInfo e.2)) s.players
    { s with currentState := some { prev with players := nextPlayers } }

/-- Embeds `resolvePlayerId` inside `handleStateMessage`: a string identifier is
returned as-is; a numeric slot id is looked up in the slot table and, on
a miss, stringified as an opaque identity. -/
def resolvePlayerId (slotToPlayerId : AssocList ℕ String) : String ⊕ ℕ → String
  | Sum.inl str => str
  | Sum.inr slot =>
    match AssocList.get slotToPlayerId slot with
    | some pid => pid
    | none => toString slot

/-- Embeds `handleStateMessage`: merge an inbound hot-state tick with the
current roster and slot table and replace the current state wholesale. -/
def handleStateMessage (s0 : StoreState) (hotState : HotGameState) (receivedAt : ℚ) : StoreState :=
  let s :=
    if s0.isGameOverActive then
      { s0 with gameOverInfo := none, isGameOverActive := false }
    else s0
  let snakes := List.map
    (fun snake : HotSnake =>
      { id := resolvePlayerId s.slotToPlayerId (Sum.inr snake.id), body := snake.body : Snake })
    hotState.snakes
  let projectiles := List.map
    (fun projectile : HotProjectileState =>
      { id := projectile.id
        ownerId := resolvePlayerId s.slotToPlayerId (Sum.inr projectile.ownerId)
        position := projectile.position
        direction := projectile.direction : ProjectileState })
    hotState.projectiles
  let players := List.map (fun e : String × PlayerInfo => (e.1, clonePlayerInfo e.2)) s.players
  let mergedState : GameState :=
    { tick := hotState.tick
      gridSize := hotState.gridSize
      mode := hotState.mode
      snakes := snakes
      food := hotState.food
      players := players
      powerUps := hotState.powerUps
      projectiles := projectiles
      gameOver := none }
  { s with
    previousState := s.currentState
    currentState := some mergedState
    lastStateTimestamp := receivedAt }

/-- Embeds `handlePlayerList`: full roster replace plus rebuild of both slot
mappings. -/
def handlePlayerList (s : StoreState) (payload : PlayerListPayload) : StoreState :=
  let nextPlayers := List.map (fun e : String × PlayerInfo => (e.1, clonePlayerInfo e.2)) payload.players
  updatePlayersInState
    { s with
      players := nextPlayers
      slotToPlayerId :=
        AssocList.ofEntries (List.map (fun a => (a.slotId, a.playerId)) payload.slotAssignments)
      playerIdToSlot :=
        AssocList.ofEntries (List.map (fun a => (a.playerId, a.slotId)) payload.slotAssignments) }

/-- Embeds `handlePlayerJoined`. -/
def handlePlayerJoined (s : StoreState) (payload : PlayerJoinedPayload) : StoreState :=
  updatePlayersInState
    { s with
      players := AssocList.set s.players payload.playerId (clonePlayerInfo payload.player)
      slotToPlayerId := AssocList.set s.slotToPlayerId payload.slotId payload.playerId
      playerIdToSlot := AssocList.set s.playerIdToSlot payload.playerId payload.slotId }

/-- Embeds `handlePlayerLeft`: ignores ids absent from the roster. -/
def handlePlayerLeft (s : StoreState) (payload : PlayerLeftPayload) : StoreState :=
  if ¬ AssocList.has s.players payload.playerId then s
  else
    updatePlayersInState
      { s with
        players := AssocList.erase s.players payload.playerId
        slotToPlayerId := AssocList.erase s.slotToPlayerId payload.slotId
        playerIdToSlot := AssocList.erase s.playerIdToSlot payload.playerId }

/-- Embeds `handleScoreUpdate`: ignores unknown ids and unchanged scores. -/
def handleScoreUpdate (s : StoreState) (payload : ScoreUpdatePayload) : StoreState :=
  match AssocList.get s.players payload.playerId with
  | none => s
  | some existing =>
    if existing.score = payload.score then s
    else
      updatePlayersInState
        { s with
          players := AssocList.set s.players payload.playerId { existing with score := payload.score } }

/-- Embeds `handlePowerupUpdate`: ignores unknown ids and updates that change
neither the slots nor the active effects. -/
def handlePowerupUpdate (s : StoreState) (payload : PowerUpUpdatePayload) : StoreState :=
  match AssocList.get s.players payload.playerId with
  | none => s
  | some existing =>
    let shouldUpdate :=
      if existing.powerUpSlots.length ≠ payload.powerUpSlots.length then true
      else
        List.any (List.zip existing.powerUpSlots payload.powerUpSlots)
          (fun e => decide (e.1 ≠ e.2))
    let sameEffects :=
      existing.activeEffects.speedBoostUntil = payload.activeEffects.speedBoostUntil ∧
      existing.activeEffects.isGhostUntil = payload.activeEffects.isGhostUntil
    if ¬ shouldUpdate ∧ sameEffects then s
    else
      updatePlayersInState
        { s with
          players := AssocList.set s.players payload.playerId
            { existing with
              powerUpSlots := payload.powerUpSlots
              activeEffects :=
                { speedBoostUntil := payload.activeEffects.speedBoostUntil
                  isGhostUntil := payload.activeEffects.isGhostUntil } } }

/-! ### Connection manager — useGameConnection.ts

The hook's React state and mutable refs are collected into `ConnState`;
the cross-tab `localStorage` entries into `StorageState`. Network and
store interactions performed by a handler are reported as an ordered
`Effect` list; the outcomes of HTTP calls are supplied by an environment
record, so each handler is a pure big-step function. -/

inductive ConnStatus where
  | disconnected
  | authenticating
  | finding_lobby
  | connecting
  | connected
  deriving DecidableEq, Repr

inductive AuthBlockReason where
  | nickname_in_use
  deriving DecidableEq, Repr

structure StorageState where
  activeTabLock : Option String
  token : Option String
  playerIdStored : Option String
  nicknameStored : Option String
  deriving DecidableEq, Repr

structure ConnState where
  status : ConnStatus
  error : Option String
  isLocked : Bool
  isSilentlyReconnecting : Bool
  authBlockedReason : Option AuthBlockReason
  token : Option String
  playerId : Option String
  nickname : String
  lockId : String
  hasSocket : Bool
  connecting : Bool
  manualDisconnect : Bool
  closing : Bool
  unloading : Bool
  reconnectTimer : Option ℚ
  reconnectAttempt : ℕ
  silentReconnecting : Bool
  lastLobbyId : Option String
  deriving DecidableEq, Repr

inductive Effect where
  | closeSocket (code : ℕ)
  | resetStore
  | authRequest
  | lobbyRequest
  | openTransport
  | invokeReconnect
  deriving DecidableEq, Repr

/-- JS `String.prototype.trim`: strip leading and trailing whitespace
(kept executable over the character list). -/
def jsTrim (s : String) : String :=
  String.mk (((s.toList.dropWhile Char.isWhitespace).reverse.dropWhile
    Char.isWhitespace).reverse)

/-- JS truthiness of a nullable string (`null` and `""` are falsy). -/
def jsTruthy : Option String → Bool
  | some str => !str.isEmpty
  | none => false

/-- The JS nullish coalescing `a ?? b`. -/
def nullishCoalesce (a b : Option String) : Option String :=
  match a with
  | some v => some v
  | none => b

def lockConflictMessage : String := "Game is active in another tab. Only one tab is allowed."

def lockManageFailMessage : String := "Failed to manage game session lock. Check browser settings."

def nicknameTooShortMessage : String := "Nickname must be at least 3 characters."

/-- Embeds `releaseMyLock`: remove the shared lock only if it is ours. -/
def releaseMyLock (g : StorageState) (myId : String) : StorageState :=
  if g.activeTabLock = some myId then { g with activeTabLock := none } else g

/-- Embeds `releaseResourcesAfterClose`: drop the socket, clear the in-flight
flag and release the cross-tab lock. -/
def releaseResourcesAfterClose (s : ConnState) (g : StorageState) : ConnState × StorageState :=
  ({ s with hasSocket := false, connecting := false }, releaseMyLock g s.lockId)

/-- Embeds `scheduleReconnect`: the visible exponential-backoff timer;
`rand` stands for the `Math.random()` sample in `[0, 1)`. -/
def scheduleReconnect (s : ConnState) (rand : ℚ) : ConnState :=
  if s.manualDisconnect || s.closing || s.unloading then s
  else if s.reconnectTimer.isSome then s
  else
    let attempt := s.reconnectAttempt + 1
    let baseDelay := CLIENT_STATE.reconnectBaseDelayMs
    let cappedDelay := min CLIENT_STATE.reconnectMaxDelayMs (baseDelay * 2 ^ (attempt - 1))
    let jitter := rand * CLIENT_STATE.reconnectJitterMs
    let delay := ((round (cappedDelay + jitter) : ℤ) : ℚ)
    { s with reconnectAttempt := attempt, reconnectTimer := some delay }

/-- Embeds `scheduleSilentReconnect`: the quiet backoff timer (base 200 ms,
ceiling 3200 ms, no jitter). -/
def scheduleSilentReconnect (s : ConnState) : ConnState :=
  if s.manualDisconnect || s.closing || s.unloading then s
  else if s.reconnectTimer.isSome then s
  else
    let s1 := { s with silentReconnecting := true, isSilentlyReconnecting := true }
    let attempt := s1.reconnectAttempt + 1
    let delay := min 3200 (200 * (2 : ℚ) ^ (attempt - 1))
    { s1 with reconnectAttempt := attempt, reconnectTimer := some delay }

/-- The `socket.onclose` handler installed by `attachHandlers`
(useGameConnection.ts, lines 428-467). `isSilentReconnect` is the flag
captured when the handlers were attached; `code` is the close code;
`rand` feeds the visible backoff's jitter. -/
def onSocketClose (s0 : ConnState) (g0 : StorageState) (isSilentReconnect : Bool)
    (code : ℕ) (rand : ℚ) : ConnState × StorageState × List Effect :=
  let rel := releaseResourcesAfterClose s0 g0
  let s := rel.1
  let g := rel.2
  if s.manualDisconnect || s.closing || s.unloading then
    ({ s with manualDisconnect := false }, g, [])
  else if code = 4000 then (s, g, [])
  else
    let isNetworkDrop := code = 1006 || code = 4002
    let canSilent :=
      isSilentReconnect ||
        (jsTruthy (nullishCoalesce s.token g.token) &&
          jsTruthy (nullishCoalesce s.playerId g.playerIdStored) &&
          !(jsTrim s.nickname).isEmpty)
    if isNetworkDrop && canSilent then
      let s1 := { s with
                  silentReconnecting := true
                  isSilentlyReconnecting := true
                  reconnectTimer := none }
      (s1, g, [Effect.invokeReconnect])
    else
      (scheduleReconnect s rand, g, [])

structure ReconnectEnv where
  lobbyResult : Option String

/-- The shared failure tail of `reconnectToLobby` (its `catch` block). -/
def reconnectFailure (s : ConnState) (g : StorageState) (message : String)
    (effs : List Effect) : ConnState × StorageState × List Effect :=
  let rel := releaseResourcesAfterClose s g
  let s1 := { rel.1 with connecting := false }
  if s1.silentReconnecting then (scheduleSilentReconnect s1, rel.2, effs)
  else ({ s1 with status := ConnStatus.disconnected, error := some message }, rel.2, effs)

/-- Embeds `reconnectToLobby` (useGameConnection.ts, lines 538-582): rejoin the
remembered or freshly assigned lobby with the cached credentials; the
eventual outcome of the lobby-resolution HTTP exchange is supplied by
`env`. -/
def reconnectToLobby (s0 : ConnState) (g : StorageState) (env : ReconnectEnv) :
    ConnState × StorageState × List Effect :=
  if s0.connecting then (s0, g, [])
  else
    let s1 := { s0 with connecting := true }
    let s2 := if ¬ s1.silentReconnecting then { s1 with status := ConnStatus.connecting } else s1
    let s := { s2 with error := none }
    let authToken := nullishCoalesce s.token g.token
    if ¬ (jsTruthy authToken && !(jsTrim s.nickname).isEmpty) then
      reconnectFailure s g "Missing session data." []
    else
      match env.lobbyResult with
      | none => reconnectFailure s g "Could not find a lobby." [Effect.lobbyRequest]
      | some lobbyId =>
        ({ s with lastLobbyId := some lobbyId, hasSocket := true }, g,
          [Effect.lobbyRequest, Effect.openTransport])

inductive AuthOutcome where
  | conflict (errorBody : Option String)
  | failure
  | success (token : String) (playerId : String) (normalizedNickname : Option String)

structure ConnectEnv where
  lockWriteOk : Bool
  authOutcome : AuthOutcome
  lobbyResult : Option String

/-- Embeds `handleConnect` (useGameConnection.ts, lines 584-742): validate,
arbitrate the cross-tab lock, authenticate, resolve a lobby and open the
transport; HTTP outcomes come from `env`. -/
def handleConnect (s0 : ConnState) (g0 : StorageState) (env : ConnectEnv) :
    ConnState × StorageState × List Effect :=
  if s0.connecting then (s0, g0, [])
  else if s0.authBlockedReason.isSome then (s0, g0, [])
  else
    let currentLock := g0.activeTabLock
    if jsTruthy currentLock && decide (currentLock ≠ some s0.lockId) then
      -- Lock exists and belongs to another tab
      ({ s0 with isLocked := true, error := some lockConflictMessage }, g0, [])
    else if ¬ env.lockWriteOk then
      ({ s0 with isLocked := true, error := some lockManageFailMessage }, g0, [])
    else
      let g := { g0 with activeTabLock := some s0.lockId }
      let s1 := { s0 with
                  isLocked := false
                  error := none
                  connecting := true
                  manualDisconnect := false
                  closing := false
                  unloading := false }
      if (jsTrim s1.nickname).length < 3 then
        ({ s1 with error := some nicknameTooShortMessage, connecting := false }, g, [])
      else
        let s2 := if s1.authBlockedReason.isNone then { s1 with error := none } else s1
        let s3 := { s2 with status := ConnStatus.authenticating }
        let closeEffs := if s3.hasSocket then [Effect.closeSocket 4000] else []
        let s4 := { s3 with hasSocket := false }
        match env.authOutcome with
        | AuthOutcome.conflict errorBody =>
          -- 409: record the block, show the error, stop all attempts
          ({ s4 with
              authBlockedReason := some AuthBlockReason.nickname_in_use
              error := some (errorBody.getD "Nickname already in use.")
              status := ConnStatus.disconnected
              connecting := false }, g,
            List.append [Effect.resetStore] (List.append closeEffs [Effect.authRequest]))
        | AuthOutcome.failure =>
          ({ s4 with
              error := some "Authentication failed. Check client secret."
              status := ConnStatus.disconnected
              connecting := false }, g,
            List.append [Effect.resetStore] (List.append closeEffs [Effect.authRequest]))
        | AuthOutcome.success tok pid normalizedNickname =>
          let s5 := { s4 with playerId := some pid, token := some tok }
          let g1 := { g with
                      token := some tok
                      playerIdStored := some pid
                      nicknameStored := some (normalizedNickname.getD (jsTrim s5.nickname)) }
          let s6 := { s5 with status := ConnStatus.finding_lobby }
          match env.lobbyResult with
          | none =>
            ({ s6 with
                error := some "Could not find a lobby."
                status := ConnStatus.disconnected
                connecting := false }, g1,
              List.append [Effect.resetStore]
                (List.append closeEffs [Effect.authRequest, Effect.lobbyRequest]))
          | some lobbyId =>
            ({ s6 with
                status := ConnStatus.connecting
                lastLobbyId := some lobbyId
                hasSocket := true }, g1,
              List.append [Effect.resetStore]
                (List.append closeEffs
                  [Effect.authRequest, Effect.lobbyRequest, Effect.openTransport]))

/-- Embeds `clearAuthBlock`. -/
def clearAuthBlock (s : ConnState) : ConnState :=
  { s with authBlockedReason := none, error := none }

/-! ### Jitter-adaptive interpolation delay -/

/-- Modelled from the spec: the jitter-EMA / interpolation-delay
computation that produces the `interpDelayMs` prop consumed by
`GameCanvas` is not among the provided sources (the canvas component
only reads the prop, and `config.ts` only holds the constants). Per the
spec, an EWMA of the absolute deviation between the observed hot-state
inter-arrival time and the expected tick interval is maintained with
weight `jitterAlpha`. -/
def jitterEmaUpdate (ema sample : ℚ) : ℚ :=
  NET_SMOOTHING.jitterAlpha * |sample - GAME_TIMING.serverTickRate| +
    (1 - NET_SMOOTHING.jitterAlpha) * ema

/-- Modelled from the spec: the jitter EMA over a sequence of
inter-arrival samples, starting from zero. -/
def jitterEma (samples : List ℚ) : ℚ :=
  List.foldl jitterEmaUpdate 0 samples

def clampQ (lo hi x : ℚ) : ℚ := max lo (min hi x)

/-- Modelled from the spec: the render interpolation delay is
`base_delay + jitter_factor * jitter_EMA` clamped to the configured
`[interpMinMs, interpMaxMs]` band. -/
def interpDelayMs (samples : List ℚ) : ℚ :=
  clampQ NET_SMOOTHING.interpMinMs NET_SMOOTHING.interpMaxMs
    (NET_SMOOTHING.interpBaseMs + NET_SMOOTHING.jitterFactor * jitterEma samples)

/-- Embeds `findPlayerDirection` from direction.ts. -/
def findPlayerDirection (state : Option GameState) (playerId : Option String) : Option Direction :=
  match state, playerId with
  | some st, some pid =>
    match List.find? (fun snake => snake.id = pid) st.snakes with
    | some snake => getDirectionFromSnake snake.body
    | none => none
  | _, _ => none

/-! ### Concrete sample states used by the witnesses -/

def sampleStoreState : StoreState :=
  { previousState := none
    currentState := none
    lastStateTimestamp := 0
    gameOverInfo := none
    isGameOverActive := false
    players := []
    slotToPlayerId := []
    playerIdToSlot := [] }

def sampleHotState : HotGameState :=
  { tick := 1
    gridSize := 32
    mode := GameModeKey.free_for_all
    snakes := [{ id := 5, body := [⟨1, 1⟩, ⟨0, 1⟩] }]
    food := []
    powerUps := []
    projectiles := []
    gameOver := none }

def samplePlayer : PlayerInfo :=
  { nickname := "bob"
    score := 0
    powerUpSlots := [none, none, none]
    teamId := none
    activeEffects := { speedBoostUntil := 0, isGhostUntil := 0 } }

def sampleConnState : ConnState :=
  { status := ConnStatus.disconnected
    error := none
    isLocked := false
    isSilentlyReconnecting := false
    authBlockedReason := none
    token := some "tok"
    playerId := some "p1"
    nickname := "alice"
    lockId := "lock-a"
    hasSocket := false
    connecting := false
    manualDisconnect := false
    closing := false
    unloading := false
    reconnectTimer := none
    reconnectAttempt := 0
    silentReconnecting := false
    lastLobbyId := none }

def sampleStorage : StorageState :=
  { activeTabLock := none
    token := some "tok"
    playerIdStored := some "p1"
    nicknameStored := some "alice" }

end Slize

namespace Slize

/-! ### Theorems -/

/-- Helper: a clamp to a well-ordered band stays inside the band. -/
theorem clampQ_mem (lo hi x : ℚ) (h : lo ≤ hi) :
    lo ≤ clampQ lo hi x ∧ clampQ lo hi x ≤ hi := by
  refine ⟨le_max_left _ _, ?_⟩
  exact max_le h (min_le_left _ _)

/-- C5: for every sequence of hot-state inter-arrival samples, the
derived render interpolation delay equals the configured base delay plus
`jitterFactor` times the jitter EMA, clamped to the configured band, and
it never leaves `[interpMinMs, interpMaxMs]` = [80 ms, 220 ms]. -/
theorem interp_delay_formula_and_band (samples : List ℚ) :
    interpDelayMs samples =
      clampQ NET_SMOOTHING.interpMinMs NET_SMOOTHING.interpMaxMs
        (NET_SMOOTHING.interpBaseMs + NET_SMOOTHING.jitterFactor * jitterEma samples) ∧
    NET_SMOOTHING.interpMinMs ≤ interpDelayMs samples ∧
    interpDelayMs samples ≤ NET_SMOOTHING.interpMaxMs := by
  have h := clampQ_mem NET_SMOOTHING.interpMinMs NET_SMOOTHING.interpMaxMs
    (NET_SMOOTHING.interpBaseMs + NET_SMOOTHING.jitterFactor * jitterEma samples)
    (by norm_num [NET_SMOOTHING])
  exact ⟨rfl, h.1, h.2⟩

/-- Helper: one `gameLoop` tick either leaves the state alone and emits
nothing, or emits the latched input with the throttle window satisfied. -/
theorem gameLoopTick_cases (s : PipeState) (t : InputTick) :
    gameLoopTick s t = (s, none) ∨
    (∃ d, t.latestInput = some d ∧
      CLIENT_STATE.inputThrottleMs < t.now - s.lastTurnSentAt ∧
      gameLoopTick s t =
        ({ lastTurnSentAt := t.now, lastSentDirection := some d }, some (t.now, d))) := by
  unfold gameLoopTick
  cases ht : t.latestInput with
  | none => exact Or.inl rfl
  | some input =>
    simp only
    split
    case isTrue h =>
      refine Or.inr ⟨input, rfl, ?_, rfl⟩
      have hb := (Bool.and_eq_true _ _).mp h
      exact of_decide_eq_true hb.2
    case isFalse h => exact Or.inl rfl

/-- Helper: along any run of `gameLoop`, consecutive emitted commands
are strictly more than the throttle interval apart, and the first one is
strictly more than the throttle interval after the recorded last send. -/
theorem runGameLoop_spacing (ticks : List InputTick) (s : PipeState) :
    List.Chain' (fun a b : ℚ × Direction => CLIENT_STATE.inputThrottleMs < b.1 - a.1)
      (runGameLoop s ticks).2 ∧
    (∀ e ∈ (runGameLoop s ticks).2.head?,
      CLIENT_STATE.inputThrottleMs < e.1 - s.lastTurnSentAt) := by
  induction ticks generalizing s with
  | nil => simp [runGameLoop]
  | cons t ts ih =>
    rcases gameLoopTick_cases s t with h | ⟨d, hin, hlt, h⟩
    · have hrec := ih s
      simpa [runGameLoop, h] using hrec
    · have hrec := ih ({ lastTurnSentAt := t.now, lastSentDirection := some d } : PipeState)
      constructor
      · simp only [runGameLoop, h, Option.toList_some, List.singleton_append]
        rw [List.chain'_cons']
        exact ⟨fun e he => hrec.2 e he, hrec.1⟩
      · intro e he
        simp only [runGameLoop, h, Option.toList_some, List.singleton_append,
          List.head?_cons, Option.mem_def, Option.some.injEq] at he
        subst he
        exact hlt

/-- C2: for any two consecutive "turn" commands emitted by `gameLoop`,
the elapsed time between their send timestamps is at least the
configured throttle interval `CLIENT_STATE.inputThrottleMs` (65 ms). -/
theorem turn_commands_throttled (s0 : PipeState) (ticks : List InputTick) :
    List.Chain' (fun a b : ℚ × Direction => CLIENT_STATE.inputThrottleMs ≤ b.1 - a.1)
      (runGameLoop s0 ticks).2 :=
  ((runGameLoop_spacing ticks s0).1).imp (fun _ _ h => le_of_lt h)

/-- C1 counterexample: with actual heading `up` (derived from the two
most recent body segments), latched intent `down`, and a last sent
direction of `left`, the break-lock condition fires and `gameLoop` emits
a "turn" command that is the exact opposite of the actual heading. -/
theorem reversal_emitted_cex :
    getDirectionFromSnake [⟨0, 0⟩, ⟨0, 1⟩] = some Direction.up ∧
    (gameLoopTick { lastTurnSentAt := 0, lastSentDirection := some Direction.left }
        { now := 100, latestInput := some Direction.down,
          actualDirection := some Direction.up }).2 = some (100, Direction.down) ∧
    isOpposite Direction.up Direction.down = true := by
  refine ⟨by decide, ?_, by decide⟩
  norm_num [gameLoopTick, isOpposite, CLIENT_STATE]
  rfl

/-- C1 (amended): `gameLoop` can emit a "turn" command that exactly
reverses the actual heading only through the break-lock condition, i.e.
any emitted reversal differs from the direction of the last command
sent; when the latched intent equals the last sent direction, no
reversal is ever emitted. -/
theorem emitted_reversal_only_breaks_lock (s : PipeState) (t : InputTick)
    (stamp : ℚ) (d a : Direction)
    (hemit : (gameLoopTick s t).2 = some (stamp, d))
    (hact : t.actualDirection = some a)
    (hopp : isOpposite a d = true) :
    s.lastSentDirection ≠ some d := by
  unfold gameLoopTick at hemit
  cases ht : t.latestInput with
  | none => rw [ht] at hemit; exact absurd hemit (by simp)
  | some input =>
    rw [ht] at hemit
    simp only at hemit
    split at hemit
    case isFalse => exact absurd hemit (by simp)
    case isTrue hcond =>
      simp only [Prod.snd, Option.some.injEq, Prod.mk.injEq] at hemit
      obtain ⟨-, hd⟩ := hemit
      subst hd
      have hb := (Bool.and_eq_true _ _).mp hcond
      have hneeds := (Bool.or_eq_true _ _).mp hb.1
      rcases hneeds with h1 | h2
      · rw [hact] at h1
        have h1b := (Bool.and_eq_true _ _).mp h1
        rw [hopp] at h1b
        exact absurd h1b.2 (by simp)
      · have := of_decide_eq_true h2
        exact fun hcontra => this hcontra.symm

/-- C1 witness for the amended claim, at the counterexample's input. -/
theorem emitted_reversal_only_breaks_lock_witness :
    (some Direction.left : Option Direction) ≠ some Direction.down :=
  emitted_reversal_only_breaks_lock
    { lastTurnSentAt := 0, lastSentDirection := some Direction.left }
    { now := 100, latestInput := some Direction.down, actualDirection := some Direction.up }
    100 Direction.down Direction.up
    (by norm_num [gameLoopTick, isOpposite, CLIENT_STATE]; rfl) rfl rfl

/-- C6: `handleStateMessage` resolves every snake id and projectile
owner through the slot-to-participant mapping, and a slot id absent from
the mapping falls back to the stringified raw slot id; the handler is a
total function, so no input makes it throw. -/
theorem slot_resolution_total (s : StoreState) (hot : HotGameState) (receivedAt : ℚ) :
    ((handleStateMessage s hot receivedAt).currentState.map GameState.snakes =
        some (List.map (fun snake : HotSnake =>
          { id := resolvePlayerId s.slotToPlayerId (Sum.inr snake.id)
            body := snake.body : Snake }) hot.snakes) ∧
      (handleStateMessage s hot receivedAt).currentState.map GameState.projectiles =
        some (List.map (fun projectile : HotProjectileState =>
          { id := projectile.id
            ownerId := resolvePlayerId s.slotToPlayerId (Sum.inr projectile.ownerId)
            position := projectile.position
            direction := projectile.direction : ProjectileState }) hot.projectiles)) ∧
    (∀ (m : AssocList ℕ String) (slot : ℕ),
      AssocList.get m slot = none → resolvePlayerId m (Sum.inr slot) = toString slot) := by
  constructor
  · simp only [handleStateMessage]
    split <;> exact ⟨rfl, rfl⟩
  · intro m slot h
    simp [resolvePlayerId, h]

/-- C6 witness: resolving the unmapped slot 7 yields its decimal string. -/
theorem slot_resolution_total_witness :
    resolvePlayerId ([] : AssocList ℕ String) (Sum.inr 7) = toString 7 :=
  (slot_resolution_total sampleStoreState sampleHotState 0).2 [] 7 rfl

/-- C7: applying the same hot-state message twice in a row, with the
roster unchanged in between, yields the same merged `currentState` as
applying it once. -/
theorem merge_idempotent (s : StoreState) (hot : HotGameState) (receivedAt : ℚ) :
    (handleStateMessage (handleStateMessage s hot receivedAt) hot receivedAt).currentState =
      (handleStateMessage s hot receivedAt).currentState := by
  cases h : s.isGameOverActive <;> simp [handleStateMessage, h]

/-- C10: an incremental roster update (score, power-up, or leave) whose
participant id is unknown leaves the whole store state unchanged, and so
does a score update carrying the already stored score. -/
theorem roster_updates_ignore_unknown (s : StoreState) :
    (∀ p : ScoreUpdatePayload, AssocList.get s.players p.playerId = none →
      handleScoreUpdate s p = s) ∧
    (∀ (p : ScoreUpdatePayload) (existing : PlayerInfo),
      AssocList.get s.players p.playerId = some existing → existing.score = p.score →
      handleScoreUpdate s p = s) ∧
    (∀ p : PowerUpUpdatePayload, AssocList.get s.players p.playerId = none →
      handlePowerupUpdate s p = s) ∧
    (∀ p : PlayerLeftPayload, AssocList.has s.players p.playerId = false →
      handlePlayerLeft s p = s) := by
  refine ⟨?_, ?_, ?_, ?_⟩
  · intro p h
    simp [handleScoreUpdate, h]
  · intro p existing h hs
    simp [handleScoreUpdate, h, hs]
  · intro p h
    simp [handlePowerupUpdate, h]
  · intro p h
    simp [handlePlayerLeft, h]

/-- C10 witness: concrete no-op updates on the sample store. -/
theorem roster_updates_ignore_unknown_witness :
    handleScoreUpdate sampleStoreState { playerId := "ghost", score := 5 } = sampleStoreState ∧
    handleScoreUpdate { sampleStoreState with players := [("bob", samplePlayer)] }
        { playerId := "bob", score := 0 } =
      { sampleStoreState with players := [("bob", samplePlayer)] } ∧
    handlePowerupUpdate sampleStoreState
        { playerId := "ghost", powerUpSlots := []
          activeEffects := { speedBoostUntil := 0, isGhostUntil := 0 } } = sampleStoreState ∧
    handlePlayerLeft sampleStoreState { playerId := "ghost", slotId := 2 } = sampleStoreState :=
  ⟨(roster_updates_ignore_unknown sampleStoreState).1 _ rfl,
   (roster_updates_ignore_unknown _).2.1 _ samplePlayer rfl rfl,
   (roster_updates_ignore_unknown sampleStoreState).2.2.1 _ rfl,
   (roster_updates_ignore_unknown sampleStoreState).2.2.2 _ rfl⟩

/-- Helper: releasing the cross-tab lock leaves the stored token
untouched. -/
theorem releaseMyLock_token (g : StorageState) (x : String) :
    (releaseMyLock g x).token = g.token := by
  unfold releaseMyLock
  split <;> rfl

/-- Helper: releasing the cross-tab lock leaves the stored player id
untouched. -/
theorem releaseMyLock_playerIdStored (g : StorageState) (x : String) :
    (releaseMyLock g x).playerIdStored = g.playerIdStored := by
  unfold releaseMyLock
  split <;> rfl

/-- C3: when the transport closes with a recoverable code (1006 or
4002), session credentials are cached, and no manual-disconnect,
closing, or unloading flag is set, the close handler emits exactly an
immediate silent reconnect invocation, arms no backoff timer, and the
outwardly visible status does not change; moreover, a reconnect attempt
running with the silent flag set never changes the status either. -/
theorem silent_reconnect_on_recoverable_close (s : ConnState) (g : StorageState)
    (isSilentReconnect : Bool) (code : ℕ) (rand : ℚ)
    (hcode : code = 1006 ∨ code = 4002)
    (htok : jsTruthy (nullishCoalesce s.token g.token) = true)
    (hpid : jsTruthy (nullishCoalesce s.playerId g.playerIdStored) = true)
    (hnick : (jsTrim s.nickname).isEmpty = false)
    (hm : s.manualDisconnect = false) (hc : s.closing = false) (hu : s.unloading = false) :
    (onSocketClose s g isSilentReconnect code rand).2.2 = [Effect.invokeReconnect] ∧
    (onSocketClose s g isSilentReconnect code rand).1.reconnectTimer = none ∧
    (onSocketClose s g isSilentReconnect code rand).1.status = s.status ∧
    (∀ (s1 : ConnState) (g1 : StorageState) (env : ReconnectEnv),
      s1.silentReconnecting = true →
      (reconnectToLobby s1 g1 env).1.status = s1.status) := by
  refine ⟨?_, ?_, ?_, ?_⟩
  · rcases hcode with h | h <;> subst h <;>
      simp [onSocketClose, releaseResourcesAfterClose, releaseMyLock_token,
        releaseMyLock_playerIdStored, hm, hc, hu, htok, hpid, hnick]
  · rcases hcode with h | h <;> subst h <;>
      simp [onSocketClose, releaseResourcesAfterClose, releaseMyLock_token,
        releaseMyLock_playerIdStored, hm, hc, hu, htok, hpid, hnick]
  · rcases hcode with h | h <;> subst h <;>
      simp [onSocketClose, releaseResourcesAfterClose, releaseMyLock_token,
        releaseMyLock_playerIdStored, hm, hc, hu, htok, hpid, hnick]
  · intro s1 g1 env h
    cases hc1 : s1.connecting with
    | true => simp [reconnectToLobby, hc1]
    | false =>
      cases henv : env.lobbyResult <;>
        simp [reconnectToLobby, reconnectFailure, releaseResourcesAfterClose,
          releaseMyLock, scheduleSilentReconnect, h, hc1, henv] <;>
        split_ifs <;> rfl

/-- C3 witness, at a cached-credential network-drop close. -/
theorem silent_reconnect_on_recoverable_close_witness :
    (onSocketClose sampleConnState sampleStorage false 1006 0).2.2 =
      [Effect.invokeReconnect] :=
  (silent_reconnect_on_recoverable_close sampleConnState sampleStorage false 1006 0
    (Or.inl rfl) rfl rfl (by decide) rfl rfl rfl).1

/-- C4: a 409 name-collision auth response makes `handleConnect` set
`authBlockedReason` to `nickname_in_use` and the status to
`disconnected`; any `handleConnect` call while the block is set returns
the state unchanged with no effects (in particular no authentication
request), and only `clearAuthBlock` resets the block. -/
theorem auth_conflict_blocks (s : ConnState) (g : StorageState) (env : ConnectEnv)
    (body : Option String)
    (hconn : s.connecting = false)
    (hblock : s.authBlockedReason = none)
    (hlock : g.activeTabLock = none ∨ g.activeTabLock = some s.lockId)
    (hwrite : env.lockWriteOk = true)
    (hnick : ¬ (jsTrim s.nickname).length < 3)
    (hauth : env.authOutcome = AuthOutcome.conflict body) :
    ((handleConnect s g env).1.authBlockedReason = some AuthBlockReason.nickname_in_use ∧
      (handleConnect s g env).1.status = ConnStatus.disconnected) ∧
    (∀ (s1 : ConnState) (g1 : StorageState) (env1 : ConnectEnv),
      s1.authBlockedReason.isSome = true → handleConnect s1 g1 env1 = (s1, g1, [])) ∧
    (∀ s1 : ConnState, (clearAuthBlock s1).authBlockedReason = none) := by
  refine ⟨?_, ?_, fun s1 => rfl⟩
  · rcases hlock with h | h <;>
      simp [handleConnect, hconn, hblock, hwrite, hnick, hauth, h, jsTruthy]
  · intro s1 g1 env1 h
    cases hx : s1.connecting <;> simp [handleConnect, hx, h]

/-- C4 witness: the concrete 409 run and a blocked retry. -/
theorem auth_conflict_blocks_witness :
    (handleConnect sampleConnState sampleStorage
        { lockWriteOk := true, authOutcome := AuthOutcome.conflict none,
          lobbyResult := none }).1.authBlockedReason =
      some AuthBlockReason.nickname_in_use :=
  ((auth_conflict_blocks sampleConnState sampleStorage
    { lockWriteOk := true, authOutcome := AuthOutcome.conflict none, lobbyResult := none }
    none rfl rfl (Or.inl rfl) rfl (by decide) rfl).1).1

/-- C8: a display name whose trimmed length is under 3 makes
`handleConnect` stop with the validation error and status
`disconnected`, performing no HTTP request and opening no transport
(the effect list is empty). -/
theorem short_nickname_rejected (s : ConnState) (g : StorageState) (env : ConnectEnv)
    (hconn : s.connecting = false)
    (hblock : s.authBlockedReason = none)
    (hlock : g.activeTabLock = none ∨ g.activeTabLock = some s.lockId)
    (hwrite : env.lockWriteOk = true)
    (hnick : (jsTrim s.nickname).length < 3)
    (hstatus : s.status = ConnStatus.disconnected) :
    (handleConnect s g env).1.error = some nicknameTooShortMessage ∧
    (handleConnect s g env).1.status = ConnStatus.disconnected ∧
    (handleConnect s g env).2.2 = [] := by
  rcases hlock with h | h <;>
    simp [handleConnect, hconn, hblock, hwrite, hnick, h, jsTruthy, hstatus]

/-- C8 witness: the two-character nickname "ab". -/
theorem short_nickname_rejected_witness :
    (handleConnect { sampleConnState with nickname := "ab" } sampleStorage
        { lockWriteOk := true, authOutcome := AuthOutcome.failure,
          lobbyResult := none }).2.2 = [] :=
  (short_nickname_rejected { sampleConnState with nickname := "ab" } sampleStorage
    { lockWriteOk := true, authOutcome := AuthOutcome.failure, lobbyResult := none }
    rfl rfl (Or.inl rfl) rfl (by decide) rfl).2.2

/-- C9: when the shared cross-tab lock holds a non-empty token of
another tab, `handleConnect` sets the locked-out flag and the
lock-conflict error and returns with no effects (no authentication
request, no transport). -/
theorem lock_conflict_rejected (s : ConnState) (g : StorageState) (env : ConnectEnv)
    (l : String)
    (hconn : s.connecting = false)
    (hblock : s.authBlockedReason = none)
    (hlock : g.activeTabLock = some l)
    (hne : l ≠ s.lockId)
    (hl : l.isEmpty = false) :
    (handleConnect s g env).1.isLocked = true ∧
    (handleConnect s g env).1.error = some lockConflictMessage ∧
    (handleConnect s g env).2.2 = [] := by
  simp [handleConnect, hconn, hblock, hlock, jsTruthy, hl, hne]

/-- C9 witness: a competing tab's lock token blocks the connect. -/
theorem lock_conflict_rejected_witness :
    (handleConnect sampleConnState { sampleStorage with activeTabLock := some "lock-b" }
        { lockWriteOk := true, authOutcome := AuthOutcome.failure,
          lobbyResult := none }).1.isLocked = true :=
  (lock_conflict_rejected sampleConnState
    { sampleStorage with activeTabLock := some "lock-b" }
    { lockWriteOk := true, authOutcome := AuthOutcome.failure, lobbyResult := none }
    "lock-b" rfl rfl rfl (by decide) rfl).1

end Slize
